import Mathlib

/-!
Shallow embedding of the `satellite-monitor` repository core
(`src/satellite_monitor/`): the weather-aware recommendation engine
(`monitor/advisor.py`), the quick pass-timing calculator
(`monitor/checker.py`), the multi-pass projection and coverage-cost
estimator (`monitor/monitor.py`), the satellite catalog
(`core/satellites.py`) and the geographic data model
(`core/location.py`).

Python floats are modelled as rationals (`ℚ`); Python `datetime` values on
the timing paths are modelled as rational "hours" offsets (all the timing
code only ever adds/subtracts `timedelta(hours=...)`); Python dicts that
are iterated in insertion order are modelled as association lists in the
same order; constructors that `raise` are modelled as `Except`-returning
smart constructors.  Numeric display strings keep the structure of the
source f-strings but not the `:,.0f` digit formatting (no claim depends on
the rendered digits).
-/

namespace SatelliteMonitor

/-- Rendering of a number inside a reason / cost string
(stand-in for Python numeric string interpolation). -/
def ratStr (q : ℚ) : String := toString q

/-! ## Weather data (`weather/models.py`, class `WeatherData`)

Only the two fields that the scoring engine `get_recommendations` reads
are modelled (`current_cloud_cover` and `is_daylight`); the remaining
fields (visibility, forecasts, sunrise/sunset, timestamps) are only used
by display code. -/

structure WeatherData where
  current_cloud_cover : ℚ
  is_daylight : Bool
deriving DecidableEq, Inhabited

/-! ## Advisor satellite database (`monitor/advisor.py`, `ADVISOR_SATELLITES`)

The Python dict is keyed by satellite name and iterated in insertion
order; it is modelled as a list in that order, with the key stored in the
`name` field. -/

structure AdvisorSatInfo where
  name : String
  provider : String
  sat_type : String
  resolution_m : ℚ
  revisit_hours : ℚ
  cost_per_sqkm : ℚ
  weather_independent : Bool
  min_cloud_ok : ℚ
  requires_daylight : Bool
  data_latency_hours : ℚ
deriving DecidableEq, Inhabited

/-- `ADVISOR_SATELLITES` from `monitor/advisor.py` lines 17-119,
in dict insertion order. -/
def ADVISOR_SATELLITES : List AdvisorSatInfo := [
  ⟨"Sentinel-1", "ESA", "SAR", 5, 144, 0, true, 100, false, 3⟩,
  ⟨"ICEYE", "ICEYE", "SAR", 0.25, 24, 100, true, 100, false, 2⟩,
  ⟨"Capella", "Capella Space", "SAR", 0.5, 24, 80, true, 100, false, 1⟩,
  ⟨"Sentinel-2", "ESA", "Optical", 10, 120, 0, false, 30, true, 3⟩,
  ⟨"PlanetScope", "Planet", "Optical", 3, 24, 2.5, false, 20, true, 2⟩,
  ⟨"SkySat", "Planet", "Optical", 0.5, 24, 10, false, 15, true, 3⟩,
  ⟨"WorldView-3", "Maxar", "Optical", 0.31, 24, 25, false, 10, true, 12⟩,
  ⟨"Pleiades-Neo", "Airbus", "Optical", 0.3, 24, 30, false, 10, true, 6⟩,
  ⟨"BlackSky", "BlackSky", "Optical", 1, 24, 4.5, false, 25, true, 1⟩]

/-- `SatelliteRecommendation` from `weather/models.py` lines 61-82. -/
structure SatelliteRecommendation where
  satellite_name : String
  provider : String
  score : ℚ
  reasons : List String
  estimated_quality : String
  cost : String
  eta_hours : ℚ
  weather_suitable : Bool
deriving DecidableEq, Inhabited

/-- Cost display string, `advisor.py` line 173:
`"FREE" if cost == 0 else f"${cost:,.0f}"`. -/
def costString (cost : ℚ) : String :=
  if cost == 0 then "FREE" else "$" ++ ratStr cost

/-- Weather suitability step of `get_recommendations`
(`advisor.py` lines 175-198).  Returns the total score adjustment of this
step, the reasons it appends (in order), and the resulting
`weather_suitable` flag.  The Python code mutates `score` with `+=`/`-=`,
so the final score is the sum `100 +` (the adjustments of each step). -/
def weatherEval (sat : AdvisorSatInfo) (w : WeatherData) : ℚ × List String × Bool :=
  if !sat.weather_independent then
    let cloudPart : ℚ × List String × Bool :=
      if w.current_cloud_cover > sat.min_cloud_ok then
        (-((w.current_cloud_cover - sat.min_cloud_ok) * 2),
         ["Too cloudy (" ++ ratStr w.current_cloud_cover ++ "% > " ++
            ratStr sat.min_cloud_ok ++ "% threshold)"],
         false)
      else
        (20, ["Good cloud conditions (" ++ ratStr w.current_cloud_cover ++ "%)"], true)
    if sat.requires_daylight && !w.is_daylight then
      (cloudPart.1 - 50, cloudPart.2.1 ++ ["Requires daylight (currently night)"], false)
    else
      cloudPart
  else
    (30, ["All-weather capability (SAR)"], true)

/-- Budget step of `get_recommendations` (`advisor.py` lines 200-206):
`if max_budget is not None and cost > max_budget: score -= 20
 elif cost == 0: score += 15`. -/
def budgetEval (max_budget : Option ℚ) (cost : ℚ) : ℚ × List String :=
  match max_budget with
  | some b =>
    if cost > b then
      (-20, ["Over budget ($" ++ ratStr cost ++ " > $" ++ ratStr b ++ ")"])
    else if cost == 0 then (15, ["Free data"])
    else (0, [])
  | none => if cost == 0 then (15, ["Free data"]) else (0, [])

/-- Resolution step of `get_recommendations` (`advisor.py` lines 208-214). -/
def resolutionEval (min_resolution : Option ℚ) (res : ℚ) : ℚ × List String :=
  match min_resolution with
  | some req =>
    if res > req then
      (-15, ["Lower resolution than required (" ++ ratStr res ++ "m > " ++
               ratStr req ++ "m)"])
    else (0, [])
  | none => (0, [])

/-- Urgency step of `get_recommendations` (`advisor.py` lines 216-223):
`if urgency_hours is not None and eta > urgency_hours: score -= 25
 elif eta <= 24: score += 10`. -/
def urgencyEval (urgency_hours : Option ℚ) (eta : ℚ) : ℚ × List String :=
  match urgency_hours with
  | some u =>
    if eta > u then
      (-25, ["Too slow (ETA " ++ ratStr eta ++ "h > " ++ ratStr u ++ "h required)"])
    else if eta ≤ 24 then (10, ["Fast delivery (" ++ ratStr eta ++ "h)"])
    else (0, [])
  | none =>
    if eta ≤ 24 then (10, ["Fast delivery (" ++ ratStr eta ++ "h)"]) else (0, [])

/-- Quality bucketing, `advisor.py` lines 226-233.  In the source this is
applied to the score value *before* the clamp on line 238. -/
def qualityOf (score : ℚ) : String :=
  if score ≥ 80 then "Excellent"
  else if score ≥ 60 then "Good"
  else if score ≥ 40 then "Fair"
  else "Poor"

/-- The clamp on `advisor.py` line 238: `max(0, min(100, score))`. -/
def clampScore (s : ℚ) : ℚ := max 0 (min 100 s)

/-- Body of the `for sat_name, sat_info in self.satellites.items()` loop of
`SmartSatelliteAdvisor.get_recommendations` (`advisor.py` lines 166-244):
the recommendation built for one satellite. -/
def scoreSatellite (area_sqkm : ℚ) (w : WeatherData)
    (max_budget min_resolution urgency_hours : Option ℚ)
    (sat : AdvisorSatInfo) : SatelliteRecommendation :=
  let cost := sat.cost_per_sqkm * area_sqkm
  let we := weatherEval sat w
  let be := budgetEval max_budget cost
  let re := resolutionEval min_resolution sat.resolution_m
  let eta := sat.revisit_hours + sat.data_latency_hours
  let ue := urgencyEval urgency_hours eta
  let score := 100 + we.1 + be.1 + re.1 + ue.1
  { satellite_name := sat.name
    provider := sat.provider
    score := clampScore score
    reasons := we.2.1 ++ be.2 ++ re.2 ++ ue.2
    estimated_quality := qualityOf score
    cost := costString cost
    eta_hours := eta
    weather_suitable := we.2.2 }

/-- The recommendation list in catalog (dict-insertion) order, before the
final sort (`advisor.py` lines 164-244). -/
def rawRecommendations (area_sqkm : ℚ) (w : WeatherData)
    (max_budget min_resolution urgency_hours : Option ℚ) :
    List SatelliteRecommendation :=
  ADVISOR_SATELLITES.map
    (scoreSatellite area_sqkm w max_budget min_resolution urgency_hours)

instance : DecidableRel
    (fun a b : SatelliteRecommendation => b.score ≤ a.score) :=
  fun a b => inferInstanceAs (Decidable (b.score ≤ a.score))

instance : IsTotal SatelliteRecommendation
    (fun a b => b.score ≤ a.score) :=
  ⟨fun a b => le_total b.score a.score⟩

instance : IsTrans SatelliteRecommendation
    (fun a b => b.score ≤ a.score) :=
  ⟨fun _ _ _ hab hbc => le_trans hbc hab⟩

/-- `SmartSatelliteAdvisor.get_recommendations` (`advisor.py` lines
146-248).  The final `recommendations.sort(key=lambda x: x.score,
reverse=True)` is Python's stable sort with a descending key; it is
modelled by the stable insertion sort with the total preorder
"`a` before `b` iff `b.score ≤ a.score`" (a stable sort by a key is
uniquely determined by that preorder and the input order). -/
def getRecommendations (area_sqkm : ℚ) (w : WeatherData)
    (max_budget min_resolution urgency_hours : Option ℚ) :
    List SatelliteRecommendation :=
  (rawRecommendations area_sqkm w max_budget min_resolution urgency_hours).insertionSort
    (fun a b => b.score ≤ a.score)

/-! ## Quick checker timing (`monitor/checker.py`)

`SatelliteChecker.calculate_times` only reads the `revisit_days`,
`last_pass_hours_ago` and `data_latency_hours` entries of a satellite
configuration dict, so only those are modelled.  Datetimes are modelled as
rational hour offsets: `datetime.now(timezone.utc)` becomes the parameter
`now`, and `timedelta(hours=h)` becomes `+ h`. -/

structure CheckerSatData where
  revisit_days : ℚ
  last_pass_hours_ago : ℚ
  data_latency_hours : ℚ
deriving DecidableEq, Inhabited

/-- `SatelliteChecker.calculate_times` (`checker.py` lines 154-185):
returns `(last_image_available, next_pass, next_image_available)`. -/
def calculate_times (now : ℚ) (d : CheckerSatData) : ℚ × ℚ × ℚ :=
  let last_pass := now - d.last_pass_hours_ago
  let last_image_available := last_pass + d.data_latency_hours
  let hours_until_next := d.revisit_days * 24 - d.last_pass_hours_ago
  let next_pass := now + max 0 hours_until_next
  let next_image_available := next_pass + d.data_latency_hours
  (last_image_available, next_pass, next_image_available)

/-! ## Satellite catalog (`core/providers.py`, `core/satellites.py`) -/

/-- `SatelliteProvider` enum, `core/providers.py` lines 6-26. -/
inductive SatelliteProvider where
  | SENTINEL_ESA | LANDSAT_USGS | MAXAR | PLANET | AIRBUS | BLACKSKY
  | ICEYE | CAPELLA | UMBRA | CLOUDFFERRO | AWS | GOOGLE | AZURE | UP42
deriving DecidableEq, Inhabited

/-- `SatelliteSpecs`, `core/satellites.py` lines 8-39. -/
structure SatelliteSpecs where
  provider : SatelliteProvider
  satellites : List String
  resolution_m : ℚ
  revisit_time_days : ℚ
  spectral_bands : ℕ
  has_sar : Bool
  has_optical : Bool
  swath_width_km : ℚ
  data_latency_hours : ℚ × ℚ
  cost_per_sqkm : ℚ × ℚ
  free_tier : Bool
  api_available : Bool
  streaming_available : Bool
deriving DecidableEq, Inhabited

/-- `SatelliteSpecs.estimate_cost`, `core/satellites.py` lines 51-63. -/
def estimate_cost (s : SatelliteSpecs) (area_sqkm : ℚ) : ℚ × ℚ :=
  (s.cost_per_sqkm.1 * area_sqkm, s.cost_per_sqkm.2 * area_sqkm)

/-- Python `[f"Name-{i}" for i in range(1, n + 1)]`. -/
def numberedNames (base : String) (n : ℕ) : List String :=
  (List.range n).map (fun i => base ++ ratStr (i + 1))

/-- `SATELLITE_CATALOG`, `core/satellites.py` lines 67-248, as an
association list in dict insertion order. -/
def SATELLITE_CATALOG : List (String × SatelliteSpecs) := [
  ("Sentinel-1", ⟨.SENTINEL_ESA, ["Sentinel-1A", "Sentinel-1B"], 5.0, 6.0, 1,
    true, false, 250, (1, 3), (0, 0), true, true, true⟩),
  ("Sentinel-2", ⟨.SENTINEL_ESA, ["Sentinel-2A", "Sentinel-2B"], 10.0, 5.0, 13,
    false, true, 290, (1, 3), (0, 0), true, true, true⟩),
  ("WorldView-3", ⟨.MAXAR, ["WorldView-3"], 0.31, 1.0, 29,
    false, true, 13.1, (1, 24), (17.5, 35.0), false, true, false⟩),
  ("WorldView-2", ⟨.MAXAR, ["WorldView-2"], 0.46, 1.1, 9,
    false, true, 16.4, (1, 24), (15.0, 30.0), false, true, false⟩),
  ("PlanetScope", ⟨.PLANET, numberedNames "Dove-" 200, 3.0, 1.0, 8,
    false, true, 32.5, (1, 12), (1.8, 3.5), false, true, true⟩),
  ("SkySat", ⟨.PLANET, numberedNames "SkySat-" 21, 0.5, 1.0, 4,
    false, true, 8.0, (1, 6), (8.0, 15.0), false, true, true⟩),
  ("Pleiades", ⟨.AIRBUS,
    ["Pleiades-1A", "Pleiades-1B", "Pleiades-Neo-3", "Pleiades-Neo-4"],
    0.3, 1.0, 6, false, true, 20.0, (1, 24), (20.0, 40.0), false, true, false⟩),
  ("SPOT", ⟨.AIRBUS, ["SPOT-6", "SPOT-7"], 1.5, 1.0, 5,
    false, true, 60.0, (2, 24), (5.0, 10.0), false, true, false⟩),
  ("BlackSky", ⟨.BLACKSKY, numberedNames "Global-" 16, 1.0, 1.0, 3,
    false, true, 5.0, (0.5, 2), (3.0, 6.0), false, true, true⟩),
  ("ICEYE", ⟨.ICEYE, numberedNames "ICEYE-X" 31, 0.25, 1.0, 1,
    true, false, 5.0, (0.5, 3), (50.0, 150.0), false, true, true⟩),
  ("Capella", ⟨.CAPELLA, numberedNames "Capella-" 10, 0.5, 1.0, 1,
    true, false, 5.0, (0.5, 2), (40.0, 120.0), false, true, true⟩),
  ("Landsat-9", ⟨.LANDSAT_USGS, ["Landsat-9"], 15.0, 16.0, 11,
    false, true, 185, (12, 48), (0, 0), true, true, false⟩)]

/-! ## Multi-pass projection (`monitor/monitor.py`, `calculate_next_passes`)

`SatelliteMonitor.calculate_next_passes` (lines 41-88) runs, per catalog
entry:

    revisit_hours = specs.revisit_time_days * 24
    next_pass_time = now
    while next_pass_time < end_time:
        ... append a pass record at next_pass_time ...
        next_pass_time += timedelta(hours=revisit_hours)

The loop guard and advance depend only on `next_pass_time`; the record
built in the body does not influence control flow, so the loop is
modelled as the fuel-indexed iteration of the emitted pass times.
`passLoop r e fuel t = none` means the loop starting at `t` with advance
`r` and bound `e` is still running after `fuel` iterations: the Python
loop terminates on an input iff `passLoop` returns `some` for some fuel. -/

def passLoop (revisit_hours end_time : ℚ) : ℕ → ℚ → Option (List ℚ)
  | 0, t => if t < end_time then none else some []
  | n + 1, t =>
    if t < end_time then
      (passLoop revisit_hours end_time n (t + revisit_hours)).map (t :: ·)
    else some []

/-- The pass times emitted for one constellation by
`calculate_next_passes(hours_ahead)` starting at `now`
(`monitor.py` lines 58-83), fuel-indexed. -/
def calculate_next_passes_times (revisit_time_days : ℚ) (now hours_ahead : ℚ)
    (fuel : ℕ) : Option (List ℚ) :=
  passLoop (revisit_time_days * 24) (now + hours_ahead) fuel now

/-- `CoverageCostInfo`: the per-constellation value built by
`estimate_total_coverage_cost` (`monitor.py` lines 170-175). -/
structure CoverageCostInfo where
  min_monthly_usd : ℚ
  max_monthly_usd : ℚ
  resolution_m : ℚ
  actual_frequency_days : ℚ
deriving DecidableEq, Inhabited

/-- `SatelliteMonitor.estimate_total_coverage_cost` (`monitor.py` lines
145-177); `area_sqkm` is `self.area.area_sqkm`.  The Python for-loop with
an `if` filter over the dict is the filter-then-map over the association
list. -/
def estimate_total_coverage_cost (area_sqkm : ℚ)
    (resolution_m frequency_days duration_months : ℚ) :
    List (String × CoverageCostInfo) :=
  let images_needed := (30 * duration_months) / frequency_days
  (SATELLITE_CATALOG.filter (fun p =>
      decide (p.2.resolution_m ≤ resolution_m) &&
      decide (p.2.revisit_time_days ≤ frequency_days))).map
    (fun p =>
      let c := estimate_cost p.2 area_sqkm
      (p.1, ⟨c.1 * images_needed, c.2 * images_needed,
             p.2.resolution_m, p.2.revisit_time_days⟩))

/-! ## Geographic data model (`core/location.py`)

`Location.__post_init__` and `Area.__post_init__` `raise ValueError` on
out-of-range inputs, so construction is modelled by `Except`-returning
smart constructors.  `Area`'s private `_area_sqkm` cache field (default
`None`, untouched by validation) is not modelled. -/

structure Location where
  name : String
  latitude : ℚ
  longitude : ℚ
  elevation_m : ℚ
deriving DecidableEq, Inhabited

/-- `Location` construction with `__post_init__` validation
(`location.py` lines 29-33). -/
def mkLocation (name : String) (latitude longitude elevation_m : ℚ) :
    Except String Location :=
  if ¬(-90 ≤ latitude ∧ latitude ≤ 90) then
    Except.error "Latitude must be between -90 and 90"
  else if ¬(-180 ≤ longitude ∧ longitude ≤ 180) then
    Except.error "Longitude must be between -180 and 180"
  else
    Except.ok ⟨name, latitude, longitude, elevation_m⟩

structure Area where
  name : String
  min_lon : ℚ
  max_lon : ℚ
  min_lat : ℚ
  max_lat : ℚ
deriving DecidableEq, Inhabited

/-- `Area` construction with `__post_init__` validation
(`location.py` lines 66-70). -/
def mkArea (name : String) (min_lon max_lon min_lat max_lat : ℚ) :
    Except String Area :=
  if min_lon ≥ max_lon then Except.error "min_lon must be less than max_lon"
  else if min_lat ≥ max_lat then Except.error "min_lat must be less than max_lat"
  else Except.ok ⟨name, min_lon, max_lon, min_lat, max_lat⟩

/-- `Area.center` property (`location.py` lines 135-141):
`(latitude, longitude)` of the box midpoint. -/
def Area.center (a : Area) : ℚ × ℚ :=
  ((a.min_lat + a.max_lat) / 2, (a.min_lon + a.max_lon) / 2)

/-- `Area.contains` (`location.py` lines 166-171). -/
def Area.contains (a : Area) (latitude longitude : ℚ) : Bool :=
  decide (a.min_lat ≤ latitude) && decide (latitude ≤ a.max_lat) &&
    decide (a.min_lon ≤ longitude) && decide (longitude ≤ a.max_lon)

/-! ## Theorems -/

/-- If the advance is not positive, the pass loop never exits: the guard
`next_pass_time < end_time` still holds after any number of iterations. -/
lemma passLoop_nonpos_revisit_none (r e : ℚ) (hr : r ≤ 0) :
    ∀ (fuel : ℕ) (t : ℚ), t < e → passLoop r e fuel t = none := by
  intro fuel
  induction fuel with
  | zero => intro t ht; simp [passLoop, ht]
  | succ n ih =>
    intro t ht
    have ht' : t + r < e := by linarith
    simp [passLoop, ht, ih (t + r) ht']

/-- Claim C3, evaluation of the code at the failing input: for a
constellation with `revisit_time_days = 0` and the default 48-hour
horizon, the `while` loop of `SatelliteMonitor.calculate_next_passes`
never terminates — after any number of iterations it is still running
(`none`), and no `InvalidConstellation` error exists anywhere in the
code to stop it, contrary to the spec's fail-fast requirement. -/
theorem claim3_zero_revisit_loops_forever (now : ℚ) (fuel : ℕ) :
    calculate_next_passes_times 0 now 48 fuel = none := by
  have h : now < now + 48 := by linarith
  simpa [calculate_next_passes_times] using
    passLoop_nonpos_revisit_none (0 * 24) (now + 48) (by norm_num) fuel now h

/-- Claim C5: in `SatelliteChecker.calculate_times` the hours-until-next
value is floored at 0, so `next_pass` is never earlier than `now`; and
whenever `last_pass_hours_ago ≥ revisit_days × 24`, `next_pass = now` and
`next_image_available = now + data_latency_hours`. -/
theorem claim5_next_pass_never_early (now : ℚ) (d : CheckerSatData) :
    now ≤ (calculate_times now d).2.1 ∧
      (d.revisit_days * 24 ≤ d.last_pass_hours_ago →
        (calculate_times now d).2.1 = now ∧
        (calculate_times now d).2.2 = now + d.data_latency_hours) := by
  refine ⟨?_, fun h => ?_⟩
  · simp only [calculate_times]
    exact le_add_of_nonneg_right (le_max_left 0 _)
  · have hmax : max 0 (d.revisit_days * 24 - d.last_pass_hours_ago) = 0 :=
      max_eq_left (by linarith)
    simp only [calculate_times, hmax]
    constructor <;> ring

/-- Witness for C5 at the Sentinel-1A checker configuration
(`revisit_days = 6`, `data_latency_hours = 3`) with an elapsed
`last_pass_hours_ago = 150 ≥ 144`. -/
theorem claim5_witness :
    (calculate_times 0 ⟨6, 150, 3⟩).2.1 = 0 ∧
      (calculate_times 0 ⟨6, 150, 3⟩).2.2 = 0 + 3 :=
  (claim5_next_pass_never_early 0 ⟨6, 150, 3⟩).2 (by norm_num)

/-- Claim C8: for every catalog constellation `estimate_cost 0 = (0, 0)`,
and every `free_tier` catalog constellation has `estimate_cost area =
(0, 0)` for every area (all free-tier entries carry a `(0, 0)` cost
range). -/
theorem claim8_zero_area_and_free_tier_cost :
    (∀ p ∈ SATELLITE_CATALOG, estimate_cost p.2 0 = (0, 0)) ∧
      ∀ p ∈ SATELLITE_CATALOG, p.2.free_tier = true →
        ∀ area : ℚ, estimate_cost p.2 area = (0, 0) := by
  have key : ∀ p ∈ SATELLITE_CATALOG, p.2.free_tier = true →
      p.2.cost_per_sqkm = (0, 0) := by decide
  refine ⟨fun p _ => ?_, fun p hp hf area => ?_⟩
  · simp [estimate_cost]
  · have hc := key p hp hf
    simp [estimate_cost, hc]

/-- Witness for C8 at the catalog's first entry (Sentinel-1, free tier)
with a nonzero area. -/
theorem claim8_witness :
    estimate_cost (SATELLITE_CATALOG.head!).2 0 = (0, 0) ∧
      estimate_cost (SATELLITE_CATALOG.head!).2 12345 = (0, 0) :=
  ⟨claim8_zero_area_and_free_tier_cost.1 _ (List.head!_mem_self (by decide)),
   claim8_zero_area_and_free_tier_cost.2 _ (List.head!_mem_self (by decide))
     (by decide) 12345⟩

/-- Claim C9: `Location` construction succeeds exactly when latitude is in
[-90, 90] and longitude is in [-180, 180]; `Area` construction succeeds
exactly when `min_lon < max_lon` and `min_lat < max_lat`; on success the
stored fields are exactly the inputs (never clamped). -/
theorem claim9_construction_validates (name : String)
    (lat lon elev minLon maxLon minLat maxLat : ℚ) :
    ((∃ loc, mkLocation name lat lon elev = Except.ok loc) ↔
        (-90 ≤ lat ∧ lat ≤ 90 ∧ -180 ≤ lon ∧ lon ≤ 180)) ∧
      (∀ loc, mkLocation name lat lon elev = Except.ok loc →
        loc = ⟨name, lat, lon, elev⟩) ∧
      ((∃ a, mkArea name minLon maxLon minLat maxLat = Except.ok a) ↔
        (minLon < maxLon ∧ minLat < maxLat)) ∧
      ∀ a, mkArea name minLon maxLon minLat maxLat = Except.ok a →
        a = ⟨name, minLon, maxLon, minLat, maxLat⟩ := by
  refine ⟨⟨?_, ?_⟩, ?_, ⟨?_, ?_⟩, ?_⟩
  · rintro ⟨loc, hloc⟩
    unfold mkLocation at hloc
    split_ifs at hloc with h1 h2
    exact ⟨h1.1, h1.2, h2.1, h2.2⟩
  · rintro ⟨ha, hb, hc, hd⟩
    refine ⟨⟨name, lat, lon, elev⟩, ?_⟩
    unfold mkLocation
    rw [if_neg (not_not_intro ⟨ha, hb⟩), if_neg (not_not_intro ⟨hc, hd⟩)]
  · intro loc hloc
    unfold mkLocation at hloc
    split_ifs at hloc
    exact (Except.ok.inj hloc).symm
  · rintro ⟨a, ha⟩
    unfold mkArea at ha
    split_ifs at ha with h1 h2
    exact ⟨not_le.mp h1, not_le.mp h2⟩
  · rintro ⟨h1, h2⟩
    refine ⟨⟨name, minLon, maxLon, minLat, maxLat⟩, ?_⟩
    unfold mkArea
    rw [if_neg (not_le.mpr h1), if_neg (not_le.mpr h2)]
  · intro a ha
    unfold mkArea at ha
    split_ifs at ha
    exact (Except.ok.inj ha).symm

/-- Witness for C9 with Brussels coordinates and the Brussels area box. -/
theorem claim9_witness :
    (∃ loc, mkLocation "Brussels" 50.8503 4.3517 100 = Except.ok loc) ∧
      (⟨"Brussels", 50.8503, 4.3517, 100⟩ : Location) =
        ⟨"Brussels", 50.8503, 4.3517, 100⟩ ∧
      (∃ a, mkArea "Brussels" 4.2 4.5 50.75 50.95 = Except.ok a) ∧
      (⟨"Brussels", 4.2, 4.5, 50.75, 50.95⟩ : Area) =
        ⟨"Brussels", 4.2, 4.5, 50.75, 50.95⟩ :=
  ⟨(claim9_construction_validates "Brussels" 50.8503 4.3517 100
      4.2 4.5 50.75 50.95).1.mpr (by norm_num),
   (claim9_construction_validates "Brussels" 50.8503 4.3517 100
      4.2 4.5 50.75 50.95).2.1 _ (by norm_num [mkLocation]),
   (claim9_construction_validates "Brussels" 50.8503 4.3517 100
      4.2 4.5 50.75 50.95).2.2.1.mpr (by norm_num),
   (claim9_construction_validates "Brussels" 50.8503 4.3517 100
      4.2 4.5 50.75 50.95).2.2.2 _ (by norm_num [mkArea])⟩

/-- Claim C10: the center of every successfully constructed `Area` is
contained in the area. -/
theorem claim10_center_in_area (name : String) (minLon maxLon minLat maxLat : ℚ)
    (a : Area) (h : mkArea name minLon maxLon minLat maxLat = Except.ok a) :
    a.contains a.center.1 a.center.2 = true := by
  unfold mkArea at h
  split_ifs at h with h1 h2
  obtain rfl : a = ⟨name, minLon, maxLon, minLat, maxLat⟩ := (Except.ok.inj h).symm
  have l1 : minLon < maxLon := not_le.mp h1
  have l2 : minLat < maxLat := not_le.mp h2
  simp only [Area.contains, Area.center, Bool.and_eq_true, decide_eq_true_eq]
  refine ⟨⟨⟨?_, ?_⟩, ?_⟩, ?_⟩ <;> linarith

/-- Witness for C10 on the Brussels area. -/
theorem claim10_witness :
    (⟨"Brussels", 4.2, 4.5, 50.75, 50.95⟩ : Area).contains
        (⟨"Brussels", 4.2, 4.5, 50.75, 50.95⟩ : Area).center.1
        (⟨"Brussels", 4.2, 4.5, 50.75, 50.95⟩ : Area).center.2 = true :=
  claim10_center_in_area "Brussels" 4.2 4.5 50.75 50.95 _ (by norm_num [mkArea])

/-- Claim C1: every recommendation returned by `get_recommendations` has
a score in [0, 100], for every weather snapshot and every combination of
the optional constraints. -/
theorem claim1_score_in_range (area : ℚ) (w : WeatherData)
    (max_budget min_resolution urgency_hours : Option ℚ)
    (r : SatelliteRecommendation)
    (hr : r ∈ getRecommendations area w max_budget min_resolution urgency_hours) :
    0 ≤ r.score ∧ r.score ≤ 100 := by
  rw [getRecommendations, List.mem_insertionSort, rawRecommendations,
    List.mem_map] at hr
  obtain ⟨sat, -, rfl⟩ := hr
  simp only [scoreSatellite]
  unfold clampScore
  exact ⟨le_max_left _ _, max_le (by norm_num) (min_le_left _ _)⟩

/-- Witness for C1 at extreme inputs: cloud cover 100 at night, budget 0,
required resolution 1 m, urgency 1 h. -/
theorem claim1_witness :
    0 ≤ (scoreSatellite 100 ⟨100, false⟩ (some 0) (some 1) (some 1)
          ADVISOR_SATELLITES.head!).score ∧
      (scoreSatellite 100 ⟨100, false⟩ (some 0) (some 1) (some 1)
          ADVISOR_SATELLITES.head!).score ≤ 100 :=
  claim1_score_in_range 100 ⟨100, false⟩ (some 0) (some 1) (some 1) _
    (by
      rw [getRecommendations, List.mem_insertionSort, rawRecommendations,
        List.mem_map]
      exact ⟨ADVISOR_SATELLITES.head!, List.head!_mem_self (by decide), rfl⟩)

/-- Claim C4: a weather-independent (SAR) constellation gets the +30
all-weather bonus with the all-weather reason and `weather_suitable =
true`, and its recommendation does not depend on the weather snapshot at
all (in particular no daylight penalty, even at night with full cloud
cover). -/
theorem claim4_sar_all_weather (sat : AdvisorSatInfo)
    (hs : sat.weather_independent = true) (area : ℚ)
    (max_budget min_resolution urgency_hours : Option ℚ) (w w' : WeatherData) :
    weatherEval sat w = (30, ["All-weather capability (SAR)"], true) ∧
      (scoreSatellite area w max_budget min_resolution urgency_hours
          sat).weather_suitable = true ∧
      "All-weather capability (SAR)" ∈
        (scoreSatellite area w max_budget min_resolution urgency_hours
          sat).reasons ∧
      scoreSatellite area w max_budget min_resolution urgency_hours sat =
        scoreSatellite area w' max_budget min_resolution urgency_hours sat := by
  have hwe : ∀ u : WeatherData,
      weatherEval sat u = (30, ["All-weather capability (SAR)"], true) := by
    intro u; simp [weatherEval, hs]
  refine ⟨hwe w, ?_, ?_, ?_⟩
  · simp [scoreSatellite, hwe w]
  · simp [scoreSatellite, hwe w]
  · simp [scoreSatellite, hwe w, hwe w']

/-- Witness for C4 at the first SAR entry (Sentinel-1) with full cloud
cover at night versus clear daylight. -/
theorem claim4_witness :
    weatherEval ADVISOR_SATELLITES.head! ⟨100, false⟩ =
        (30, ["All-weather capability (SAR)"], true) ∧
      (scoreSatellite 100 ⟨100, false⟩ none none none
          ADVISOR_SATELLITES.head!).weather_suitable = true ∧
      "All-weather capability (SAR)" ∈
        (scoreSatellite 100 ⟨100, false⟩ none none none
          ADVISOR_SATELLITES.head!).reasons ∧
      scoreSatellite 100 ⟨100, false⟩ none none none ADVISOR_SATELLITES.head! =
        scoreSatellite 100 ⟨0, true⟩ none none none ADVISOR_SATELLITES.head! :=
  claim4_sar_all_weather ADVISOR_SATELLITES.head! (by decide) 100
    none none none ⟨100, false⟩ ⟨0, true⟩

/-- The quality bucket thresholds, read off `qualityOf` directly. -/
lemma qualityOf_iff (t : ℚ) :
    (qualityOf t = "Excellent" ↔ 80 ≤ t) ∧
      (qualityOf t = "Good" ↔ 60 ≤ t ∧ t < 80) ∧
      (qualityOf t = "Fair" ↔ 40 ≤ t ∧ t < 60) ∧
      (qualityOf t = "Poor" ↔ t < 40) := by
  unfold qualityOf
  split_ifs with h1 h2 h3
  · exact ⟨⟨fun _ => h1, fun _ => rfl⟩,
      ⟨fun h => absurd h (by decide), fun h => absurd h.2 (not_lt.mpr h1)⟩,
      ⟨fun h => absurd h (by decide),
        fun h => absurd h.2 (not_lt.mpr (by linarith))⟩,
      ⟨fun h => absurd h (by decide),
        fun h => absurd h (not_lt.mpr (by linarith))⟩⟩
  · exact ⟨⟨fun h => absurd h (by decide), fun h => absurd h h1⟩,
      ⟨fun _ => ⟨h2, not_le.mp h1⟩, fun _ => rfl⟩,
      ⟨fun h => absurd h (by decide), fun h => absurd h.2 (not_lt.mpr h2)⟩,
      ⟨fun h => absurd h (by decide),
        fun h => absurd h (not_lt.mpr (by linarith))⟩⟩
  · exact ⟨⟨fun h => absurd h (by decide), fun h => absurd h h1⟩,
      ⟨fun h => absurd h (by decide), fun h => absurd h.1 h2⟩,
      ⟨fun _ => ⟨h3, not_le.mp h2⟩, fun _ => rfl⟩,
      ⟨fun h => absurd h (by decide),
        fun h => absurd h (not_lt.mpr h3)⟩⟩
  · exact ⟨⟨fun h => absurd h (by decide), fun h => absurd h h1⟩,
      ⟨fun h => absurd h (by decide), fun h => absurd h.1 h2⟩,
      ⟨fun h => absurd h (by decide), fun h => absurd h.1 h3⟩,
      ⟨fun _ => not_le.mp h3, fun _ => rfl⟩⟩

/-- Clamping to [0, 100] does not move the score across a threshold that
lies in (0, 100]. -/
lemma le_clampScore_iff (a s : ℚ) (h0 : 0 < a) (h100 : a ≤ 100) :
    a ≤ clampScore s ↔ a ≤ s := by
  unfold clampScore
  rw [le_max_iff, le_min_iff]
  constructor
  · rintro (h | ⟨-, h⟩)
    · linarith
    · exact h
  · intro h; exact Or.inr ⟨h100, h⟩

/-- Claim C6: in every returned recommendation, `estimated_quality` is the
bucket of the (clamped) stored score: Excellent iff ≥ 80, Good iff in
[60, 80), Fair iff in [40, 60), Poor iff < 40. -/
theorem claim6_quality_matches_score (area : ℚ) (w : WeatherData)
    (max_budget min_resolution urgency_hours : Option ℚ)
    (r : SatelliteRecommendation)
    (hr : r ∈ getRecommendations area w max_budget min_resolution urgency_hours) :
    (r.estimated_quality = "Excellent" ↔ 80 ≤ r.score) ∧
      (r.estimated_quality = "Good" ↔ 60 ≤ r.score ∧ r.score < 80) ∧
      (r.estimated_quality = "Fair" ↔ 40 ≤ r.score ∧ r.score < 60) ∧
      (r.estimated_quality = "Poor" ↔ r.score < 40) := by
  rw [getRecommendations, List.mem_insertionSort, rawRecommendations,
    List.mem_map] at hr
  obtain ⟨sat, -, rfl⟩ := hr
  simp only [scoreSatellite]
  have main : ∀ s : ℚ,
      (qualityOf s = "Excellent" ↔ 80 ≤ clampScore s) ∧
        (qualityOf s = "Good" ↔ 60 ≤ clampScore s ∧ clampScore s < 80) ∧
        (qualityOf s = "Fair" ↔ 40 ≤ clampScore s ∧ clampScore s < 60) ∧
        (qualityOf s = "Poor" ↔ clampScore s < 40) := by
    intro s
    have h80 := le_clampScore_iff 80 s (by norm_num) (by norm_num)
    have h60 := le_clampScore_iff 60 s (by norm_num) (by norm_num)
    have h40 := le_clampScore_iff 40 s (by norm_num) (by norm_num)
    have l80 : clampScore s < 80 ↔ s < 80 := by rw [← not_le, h80, not_le]
    have l60 : clampScore s < 60 ↔ s < 60 := by rw [← not_le, h60, not_le]
    have l40 : clampScore s < 40 ↔ s < 40 := by rw [← not_le, h40, not_le]
    obtain ⟨e1, e2, e3, e4⟩ := qualityOf_iff s
    exact ⟨e1.trans h80.symm, e2.trans (and_congr h60.symm l80.symm),
      e3.trans (and_congr h40.symm l60.symm), e4.trans l40.symm⟩
  exact main _

/-- Witness for C6 at a configuration with all penalties active. -/
theorem claim6_witness :
    ((scoreSatellite 100 ⟨100, false⟩ (some 0) (some 1) (some 1)
          ADVISOR_SATELLITES.head!).estimated_quality = "Excellent" ↔
        80 ≤ (scoreSatellite 100 ⟨100, false⟩ (some 0) (some 1) (some 1)
          ADVISOR_SATELLITES.head!).score) ∧
      ((scoreSatellite 100 ⟨100, false⟩ (some 0) (some 1) (some 1)
          ADVISOR_SATELLITES.head!).estimated_quality = "Good" ↔
        60 ≤ (scoreSatellite 100 ⟨100, false⟩ (some 0) (some 1) (some 1)
          ADVISOR_SATELLITES.head!).score ∧
        (scoreSatellite 100 ⟨100, false⟩ (some 0) (some 1) (some 1)
          ADVISOR_SATELLITES.head!).score < 80) ∧
      ((scoreSatellite 100 ⟨100, false⟩ (some 0) (some 1) (some 1)
          ADVISOR_SATELLITES.head!).estimated_quality = "Fair" ↔
        40 ≤ (scoreSatellite 100 ⟨100, false⟩ (some 0) (some 1) (some 1)
          ADVISOR_SATELLITES.head!).score ∧
        (scoreSatellite 100 ⟨100, false⟩ (some 0) (some 1) (some 1)
          ADVISOR_SATELLITES.head!).score < 60) ∧
      ((scoreSatellite 100 ⟨100, false⟩ (some 0) (some 1) (some 1)
          ADVISOR_SATELLITES.head!).estimated_quality = "Poor" ↔
        (scoreSatellite 100 ⟨100, false⟩ (some 0) (some 1) (some 1)
          ADVISOR_SATELLITES.head!).score < 40) :=
  claim6_quality_matches_score 100 ⟨100, false⟩ (some 0) (some 1) (some 1) _
    (by
      rw [getRecommendations, List.mem_insertionSort, rawRecommendations,
        List.mem_map]
      exact ⟨ADVISOR_SATELLITES.head!, List.head!_mem_self (by decide), rfl⟩)

/-- Inserting into the stable descending insertion sort commutes with
filtering by an exact score: an element can only be inserted past
elements of strictly larger score. -/
lemma filter_orderedInsert_score (q : ℚ) (a : SatelliteRecommendation) :
    ∀ l : List SatelliteRecommendation,
      (l.orderedInsert (fun x y => y.score ≤ x.score) a).filter
          (fun x => x.score == q) =
        if a.score == q then
          a :: l.filter (fun x => x.score == q)
        else l.filter (fun x => x.score == q) := by
  intro l
  induction l with
  | nil =>
    by_cases ha : a.score = q
    · simp [List.orderedInsert, List.filter, ha]
    · have hba : (a.score == q) = false := beq_eq_false_iff_ne.mpr ha
      simp [List.orderedInsert, List.filter, ha, hba]
  | cons b l ih =>
    by_cases hab : b.score ≤ a.score
    · rw [List.orderedInsert, if_pos hab]
      by_cases ha : a.score = q <;> simp [List.filter_cons, ha]
    · rw [List.orderedInsert, if_neg hab]
      by_cases hb : b.score = q
      · by_cases ha : a.score = q
        · exact absurd (le_of_eq (hb.trans ha.symm)) hab
        · simp [List.filter_cons, hb, ha, ih]
      · by_cases ha : a.score = q <;> simp [List.filter_cons, hb, ha, ih]

/-- The stable descending insertion sort preserves the relative order of
equal-score elements: filtering by any exact score commutes with it. -/
lemma filter_insertionSort_score (q : ℚ) :
    ∀ l : List SatelliteRecommendation,
      (l.insertionSort (fun x y => y.score ≤ x.score)).filter
          (fun x => x.score == q) =
        l.filter (fun x => x.score == q) := by
  intro l
  induction l with
  | nil => rfl
  | cons a l ih =>
    rw [List.insertionSort, filter_orderedInsert_score, ih]
    by_cases ha : a.score = q <;> simp [List.filter_cons, ha]

/-- Claim C2: the returned list is sorted by score descending, and the
sort is stable — for every score value, the sub-list of recommendations
carrying exactly that score is the same (same elements, same order) as in
the unsorted catalog-order list `rawRecommendations`, so equal-score
entries keep the catalog insertion order with no other tie-break key. -/
theorem claim2_sorted_descending_stable (area : ℚ) (w : WeatherData)
    (max_budget min_resolution urgency_hours : Option ℚ) :
    List.Sorted (fun a b : SatelliteRecommendation => b.score ≤ a.score)
        (getRecommendations area w max_budget min_resolution urgency_hours) ∧
      ∀ q : ℚ,
        (getRecommendations area w max_budget min_resolution
            urgency_hours).filter (fun x => x.score == q) =
          (rawRecommendations area w max_budget min_resolution
            urgency_hours).filter (fun x => x.score == q) :=
  ⟨List.sorted_insertionSort _ _, fun q => filter_insertionSort_score q _⟩

/-- Claim C7: `estimate_total_coverage_cost` returns exactly the catalog
entries with `resolution_m ≤` the requested maximum and
`revisit_time_days ≤ frequency_days`, each costed at `cost_per_sqkm ×
area × (30 × duration_months / frequency_days)` on both ends of the cost
range; in particular, with maximum resolution 5 and frequency 1, the free
5 m / 6-day Sentinel-1 entry is excluded while the paid 3 m / 1-day
PlanetScope entry is included. -/
theorem claim7_coverage_cost_filter (area res freq dur : ℚ) :
    (∀ e ∈ estimate_total_coverage_cost area res freq dur,
        ∃ p ∈ SATELLITE_CATALOG, e.1 = p.1 ∧
          p.2.resolution_m ≤ res ∧ p.2.revisit_time_days ≤ freq ∧
          e.2.min_monthly_usd = p.2.cost_per_sqkm.1 * area * (30 * dur / freq) ∧
          e.2.max_monthly_usd = p.2.cost_per_sqkm.2 * area * (30 * dur / freq)) ∧
      (∀ p ∈ SATELLITE_CATALOG,
        p.2.resolution_m ≤ res → p.2.revisit_time_days ≤ freq →
        (p.1, (⟨p.2.cost_per_sqkm.1 * area * (30 * dur / freq),
               p.2.cost_per_sqkm.2 * area * (30 * dur / freq),
               p.2.resolution_m, p.2.revisit_time_days⟩ : CoverageCostInfo)) ∈
          estimate_total_coverage_cost area res freq dur) ∧
      "Sentinel-1" ∉ (estimate_total_coverage_cost 100 5 1 1).map Prod.fst ∧
      "PlanetScope" ∈ (estimate_total_coverage_cost 100 5 1 1).map Prod.fst := by
  refine ⟨?_, ?_, ?_, ?_⟩
  · intro e he
    rw [estimate_total_coverage_cost, List.mem_map] at he
    obtain ⟨p, hpf, rfl⟩ := he
    rw [List.mem_filter] at hpf
    obtain ⟨hp, hcond⟩ := hpf
    rw [Bool.and_eq_true, decide_eq_true_eq, decide_eq_true_eq] at hcond
    exact ⟨p, hp, rfl, hcond.1, hcond.2, rfl, rfl⟩
  · intro p hp h1 h2
    rw [estimate_total_coverage_cost, List.mem_map]
    refine ⟨p, List.mem_filter.mpr ⟨hp, ?_⟩, rfl⟩
    rw [Bool.and_eq_true, decide_eq_true_eq, decide_eq_true_eq]
    exact ⟨h1, h2⟩
  · intro hmem
    rw [List.mem_map] at hmem
    obtain ⟨e, he, hname⟩ := hmem
    rw [estimate_total_coverage_cost, List.mem_map] at he
    obtain ⟨p, hpf, rfl⟩ := he
    rw [List.mem_filter, Bool.and_eq_true, decide_eq_true_eq,
      decide_eq_true_eq] at hpf
    obtain ⟨hp, -, hrev⟩ := hpf
    simp only [SATELLITE_CATALOG, List.mem_cons, List.not_mem_nil,
      or_false] at hp
    rcases hp with rfl | rfl | rfl | rfl | rfl | rfl | rfl | rfl | rfl |
        rfl | rfl | rfl <;> try simp at hname
    norm_num at hrev
  · rw [List.mem_map]
    refine ⟨(("PlanetScope" : String),
      (⟨1.8 * 100 * (30 * 1 / 1), 3.5 * 100 * (30 * 1 / 1), 3.0, 1.0⟩ :
        CoverageCostInfo)), ?_, rfl⟩
    rw [estimate_total_coverage_cost, List.mem_map]
    refine ⟨("PlanetScope", ⟨.PLANET, numberedNames "Dove-" 200, 3.0, 1.0, 8,
      false, true, 32.5, (1, 12), (1.8, 3.5), false, true, true⟩),
      List.mem_filter.mpr ⟨by simp [SATELLITE_CATALOG], ?_⟩, rfl⟩
    rw [Bool.and_eq_true, decide_eq_true_eq, decide_eq_true_eq]
    exact ⟨by norm_num, by norm_num⟩

/-- Witness for C7 at the Landsat-9 entry (15 m, 16-day revisit) with
maximum resolution 15 and frequency 16. -/
theorem claim7_witness :
    ("Landsat-9",
        (⟨0 * 100 * (30 * 1 / 16), 0 * 100 * (30 * 1 / 16), 15.0, 16.0⟩ :
          CoverageCostInfo)) ∈
      estimate_total_coverage_cost 100 15 16 1 := by
  have h := (claim7_coverage_cost_filter 100 15 16 1).2.1
    ("Landsat-9", ⟨.LANDSAT_USGS, ["Landsat-9"], 15.0, 16.0, 11, false, true,
      185, (12, 48), (0, 0), true, true, false⟩)
    (by simp [SATELLITE_CATALOG]) (by norm_num) (by norm_num)
  exact h

end SatelliteMonitor
